import Mathlib

/-!
Shallow embedding of the cluster network configuration repository.

Source files:
- `cluster_network_auto_configurator_production.py` (the production
  reconciler; namespace `ClusterNet`), and
- `cluster_network_configurator.py` (the standalone legacy configurator;
  namespace `ClusterNet.Legacy`).

Modelling conventions:
- YAML scalar values that can be stored as either integers or strings
  (the persisted `vlanId`) are modelled by `YVal`; Python truthiness of
  those values is `pyTruthy` and Python `str()` is `pyStr`.
- A parsed YAML document is modelled by `ParseOutcome`: `raises` for a
  document on which `yaml.safe_load` (or a subsequent `.get` on an
  ill-typed field) raises, `null` for a document that loads as `None`,
  and `dict d` for a well-typed mapping.  An artifact (`Doc`) carries
  both its parse outcome and its raw lines, because the rewriter reads
  the file twice (once parsed, once as lines).
- Lines are modelled without their trailing newline character; the
  final-newline patch-up of the rewriter is therefore invisible here.
- Python `int(s)` on a string is `pyIntOfString` (sign and digits after
  stripping surrounding whitespace; underscore digit grouping is not
  modelled).
- The external allocator is an oracle: the health probe is a boolean,
  the bulk `/segments?allocated=true` response is an optional record
  list (`none` = the HTTP call failed or did not return a list), and
  `/allocate-vlan` is a function returning the validated
  `(segment, str(vlan_id))` pair or `none` on any failure or missing
  field.
- Writing a file appends `yaml.dump` of the new sections after the
  stripped original lines; the dumped managed payload is modelled
  semantically as `Sections`, an insertion-ordered key/value list,
  since PyYAML serialization itself is an external library.
-/

namespace ClusterNet

/-- A Python value that a YAML scalar such as `vlanId` can hold. -/
inductive YVal
  | int (n : Int)
  | str (s : String)
deriving DecidableEq

/-- Python `str()` of a `YVal`. -/
def pyStr : YVal → String
  | .int n => toString n
  | .str s => s

/-- Python truthiness of a `YVal` (`0` and `""` are falsy). -/
def pyTruthy : YVal → Bool
  | .int n => n != 0
  | .str s => s != ""

/-- Truthiness of an optional string (Python `None` and `""` are falsy). -/
def truthyOptStr : Option String → Bool
  | none => false
  | some s => s != ""

/-- ASCII whitespace as Python `str.strip` sees it. -/
def pyWs (c : Char) : Bool :=
  c == ' ' || c == '\t' || c == '\n' || c == '\r' || c == '\x0b' || c == '\x0c'

/-- Python `str.strip()` on a character list. -/
def trimChars (l : List Char) : List Char :=
  ((l.dropWhile pyWs).reverse.dropWhile pyWs).reverse

/-- `s.startswith(p)` on character lists. -/
def startsWithChars : List Char → List Char → Bool
  | _, [] => true
  | [], _ :: _ => false
  | c :: cs, p :: ps => c == p && startsWithChars cs ps

/-- Python `int(s)` for a digit list: all digits, most significant first. -/
def digitsToNat : List Char → Option Nat
  | [] => none
  | cs =>
    if cs.all Char.isDigit then
      some (cs.foldl (fun acc c => acc * 10 + (c.toNat - 48)) 0)
    else none

/-- Python `int(s)` applied to a string (`None` models a raised `ValueError`). -/
def pyIntOfString (s : String) : Option Int :=
  match trimChars s.data with
  | [] => none
  | c :: rest =>
    if c = '-' then (digitsToNat rest).map (fun n => -(n : Int))
    else if c = '+' then (digitsToNat rest).map (fun n => (n : Int))
    else (digitsToNat (c :: rest)).map (fun n => (n : Int))

/-- One endpoint mapping of a network rule (`from` / `destination` /
`destention`): `{segment, system-name}`, each field optional. -/
structure Endpoint where
  segment : Option String
  systemName : Option String
deriving DecidableEq

/-- One entry of a rule's `ports` list.  The production script writes
`{type: port, number, protocol}` and `{type: range, start, end, protocol}`
entries; the legacy script writes `{port, type}` entries. -/
inductive PortEntry
  | single (number : Int) (protocol : String)
  | portRange (rangeStart rangeEnd : Int) (protocol : String)
  | legacy (port : Int) (ptype : String)
deriving DecidableEq

/-- A persisted network rule as the code reads and writes it.  `fromEp`
models the YAML key `from` (a Lean keyword). -/
structure NetRule where
  number : Option Int := none
  domain : Option String := none
  fromEp : Option Endpoint := none
  destination : Option Endpoint := none
  destention : Option Endpoint := none
  ports : List PortEntry := []
deriving DecidableEq

/-- `d.get('segment', '')` after `net.get(key, {})`: the empty string when
the endpoint or its segment is missing. -/
def epSeg : Option Endpoint → String
  | none => ""
  | some e => e.segment.getD ""

/-- `net.get('from', {}).get('segment', '')` (line 434). -/
def getFromSeg (r : NetRule) : String := epSeg r.fromEp

/-- `net.get('destination', {}).get('segment', '') or
net.get('destention', {}).get('segment', '')` (lines 435-436): the
canonical spelling wins when it yields a truthy (non-empty) segment,
otherwise the legacy spelling is consulted. -/
def getDestSeg (r : NetRule) : String :=
  let d := epSeg r.destination
  if d != "" then d else epSeg r.destention

/-- The `(from-segment, extracted destination-segment)` pair of a rule:
everything the equality oracle reads from a rule. -/
def ruleSegPair (r : NetRule) : String × String := (getFromSeg r, getDestSeg r)

/-- The decided reconciliation action of the comparison step. -/
inductive Action
  | noChange
  | updated
  | added
deriving DecidableEq

/-- Well-typed managed fields of a parsed artifact mapping:
`vlanId`, `Networks`, and the opt-out flag `AutomaticAllocation`
(only the exact value `False` disables reconciliation). -/
structure YamlDict where
  vlanId : Option YVal := none
  networks : List NetRule := []
  automaticAllocation : Option Bool := none
deriving DecidableEq

/-- Outcome of `yaml.safe_load` on an artifact. -/
inductive ParseOutcome
  | raises
  | null
  | dict (d : YamlDict)
deriving DecidableEq

/-- `yaml.safe_load(file) or {}` (line 415): `None` becomes the empty
mapping, a raising parse has no dictionary. -/
def parsedDict : ParseOutcome → Option YamlDict
  | .raises => none
  | .null => some {}
  | .dict d => some d

/-- An artifact: its parse outcome and its raw lines. -/
structure Doc where
  parsed : ParseOutcome
  lines : List String
deriving DecidableEq

/-- `vlan_matches` (line 427):
`str(existing_vlan_id) == str(vlan_id) if existing_vlan_id else False`. -/
def vlanMatchesB (vlanId : String) (ev : Option YVal) : Bool :=
  match ev with
  | none => false
  | some v => if pyTruthy v then pyStr v == vlanId else false

/-- The per-rule bidirectional segment comparison (lines 438-439). -/
def ruleMatches (mceSeg clusterSeg : String) (r : NetRule) : Bool :=
  (getFromSeg r == mceSeg && getDestSeg r == clusterSeg) ||
    (getFromSeg r == clusterSeg && getDestSeg r == mceSeg)

/-- `segments_match` (lines 430-444): scanned only when the MCE segment is
truthy and the persisted rule list is truthy; unconditionally true when the
MCE segment is falsy. -/
def segmentsMatchB (mce : Option String) (clusterSeg : String)
    (nets : List NetRule) : Bool :=
  if truthyOptStr mce && !nets.isEmpty then
    nets.any (ruleMatches (mce.getD "") clusterSeg)
  else if !truthyOptStr mce then true
  else false

/-- `existing_vlan_id or existing_networks` (line 452): Python truthiness
of the pre-existing managed content. -/
def hadContentB (ev : Option YVal) (nets : List NetRule) : Bool :=
  (match ev with
   | some v => pyTruthy v
   | none => false) || !nets.isEmpty

/-- The equality oracle (lines 426-452): `no_change` when both checks pass,
otherwise `updated` when the artifact had a truthy `vlanId` or a non-empty
rule list, otherwise `added`. -/
def decide_action (vlanId : String) (mce : Option String) (clusterSeg : String)
    (ev : Option YVal) (nets : List NetRule) : Action :=
  if vlanMatchesB vlanId ev && segmentsMatchB mce clusterSeg nets then
    .noChange
  else if hadContentB ev nets then
    .updated
  else
    .added

/-! ## Line surgery (lines 459-483) -/

/-- `line.strip().startswith('vlanId:')` (line 467). -/
def isVlanLine (l : String) : Bool :=
  startsWithChars (trimChars l.data) "vlanId:".data

/-- `line.strip().startswith('Networks:')` (line 470). -/
def isNetworksLine (l : String) : Bool :=
  startsWithChars (trimChars l.data) "Networks:".data

/-- `line.startswith((' ', '-')) or line.strip() == ''` (line 475). -/
def isBlockContLine (l : String) : Bool :=
  startsWithChars l.data [' '] || startsWithChars l.data ['-'] ||
    trimChars l.data == []

/-- The removal loop of lines 463-479, with `skip_networks` as the state. -/
def stripGo : Bool → List String → List String
  | _, [] => []
  | sk, l :: ls =>
    if isVlanLine l then stripGo sk ls
    else if isNetworksLine l then stripGo true ls
    else if sk then
      (if isBlockContLine l then stripGo true ls else l :: stripGo false ls)
    else l :: stripGo false ls

/-- Removal of the managed `vlanId` / `Networks` lines from a document. -/
def stripManaged (lines : List String) : List String := stripGo false lines

/-- Scanner state of the block-removal state machine. -/
inductive ScanState
  | normal
  | inBlock
deriving DecidableEq

/-- One transition of the amended scanning rule, stated as an explicit
state machine: a `vlanId:`-keyed line is always dropped and never changes
the state (in particular it does not end a `Networks` block), a
`Networks:`-keyed line is dropped and (re)enters the block, and inside a
block a line is dropped while it is indented, begins with a dash, or is
blank; the first other line ends the block and is kept. -/
def specStep : ScanState → String → ScanState × Bool
  | st, l =>
    if isVlanLine l then (st, false)
    else if isNetworksLine l then (.inBlock, false)
    else
      match st with
      | .inBlock => if isBlockContLine l then (.inBlock, false) else (.normal, true)
      | .normal => (.normal, true)

/-- Folding the amended scanning rule over a document. -/
def specScan : ScanState → List String → List String
  | _, [] => []
  | st, l :: ls =>
    let p := specStep st l
    if p.2 then l :: specScan p.1 ls else specScan p.1 ls

/-- The scanning rule exactly as the claim words it: inside a block, the
first line that is not indented, not a list item, and not blank ends the
block, and is then handled by the normal state (so a `vlanId:` line ends
the block there). -/
def claimScan : ScanState → List String → List String
  | _, [] => []
  | .normal, l :: ls =>
    if isVlanLine l then claimScan .normal ls
    else if isNetworksLine l then claimScan .inBlock ls
    else l :: claimScan .normal ls
  | .inBlock, l :: ls =>
    if isBlockContLine l then claimScan .inBlock ls
    else if isVlanLine l then claimScan .normal ls
    else if isNetworksLine l then claimScan .inBlock ls
    else l :: claimScan .normal ls

/-! ## The written managed payload (lines 370-398 and 486-498) -/

/-- Network constants (lines 52-59). -/
def DEFAULT_DOMAIN : String := "default"

/-- `DEFAULT_PORTS` (lines 53-56). -/
def DEFAULT_PORTS : List PortEntry :=
  [.single 80 "TCP", .single 8080 "TCP"]

/-- `DEFAULT_PORT_RANGES` (lines 57-59). -/
def DEFAULT_PORT_RANGES : List PortEntry :=
  [.portRange 30000 36000 "TCP"]

/-- `get_default_ports_config` (lines 370-372). -/
def get_default_ports_config : List PortEntry :=
  DEFAULT_PORTS ++ DEFAULT_PORT_RANGES

/-- `_create_network_rule` (lines 375-390). -/
def create_network_rule (number : Int) (fromSegment fromName toSegment toName : String) :
    NetRule :=
  { number := some number
    domain := some DEFAULT_DOMAIN
    fromEp := some ⟨some fromSegment, some fromName⟩
    destination := some ⟨some toSegment, some toName⟩
    destention := none
    ports := get_default_ports_config }

/-- `create_network_config` of the production script (lines 393-398). -/
def create_network_config (mceSegment clusterSegment mceName clusterName : String) :
    List NetRule :=
  [create_network_rule 1 mceSegment mceName clusterSegment clusterName,
   create_network_rule 2 clusterSegment clusterName mceSegment mceName]

/-- A value of the freshly dumped managed sections. -/
inductive SecVal
  | int (n : Int)
  | nets (l : List NetRule)
deriving DecidableEq

/-- The `new_sections` dictionary, in insertion order (lines 486-488). -/
abbrev Sections := List (String × SecVal)

/-- The `vlanId` entry of a written sections payload. -/
def sectionsVlan (s : Sections) : Option Int :=
  (s.lookup "vlanId").bind fun v =>
    match v with
    | .int n => some n
    | _ => none

/-- The `Networks` entry of a written sections payload. -/
def sectionsNets (s : Sections) : Option (List NetRule) :=
  (s.lookup "Networks").bind fun v =>
    match v with
    | .nets l => some l
    | _ => none

/-- The action component of `update_cluster_yaml_smart`'s return value,
including the `"error"` outcome of the catch-all handler. -/
inductive UAction
  | noChange
  | updated
  | added
  | error
deriving DecidableEq

/-- Lift a decided action into an update outcome. -/
def UAction.ofAction : Action → UAction
  | .noChange => .noChange
  | .updated => .updated
  | .added => .added

/-- Result of `update_cluster_yaml_smart`: the returned
`(success, action)` pair, plus the write that occurred (`none` when the
file was left untouched).  A write is the stripped original lines followed
by the dump of the new sections. -/
structure UpdateResult where
  success : Bool
  action : UAction
  written : Option (List String × Sections)
deriving DecidableEq

/-- `update_cluster_yaml_smart` (lines 401-505).  A raising parse (or an
ill-typed managed field, which also raises inside the `try`) takes the
catch-all path and returns `(False, "error")`; `int(vlan_id)` raising does
the same.  On `no_change` or under dry-run nothing is written. -/
def update_cluster_yaml_smart (doc : Doc) (vlanId : String) (mceSegment : Option String)
    (clusterSegment mceName clusterName : String) (dryRun : Bool) : UpdateResult :=
  match parsedDict doc.parsed with
  | none => ⟨false, .error, none⟩
  | some d =>
    match decide_action vlanId mceSegment clusterSegment d.vlanId d.networks with
    | .noChange => ⟨true, .noChange, none⟩
    | a =>
      if dryRun then ⟨true, UAction.ofAction a, none⟩
      else
        match pyIntOfString vlanId with
        | none => ⟨false, .error, none⟩
        | some n =>
          let stripped := stripManaged doc.lines
          let secs : Sections :=
            [("vlanId", SecVal.int n)] ++
              (if truthyOptStr mceSegment then
                [("Networks",
                  SecVal.nets (create_network_config (mceSegment.getD "")
                    clusterSegment mceName clusterName))]
              else [])
          ⟨true, UAction.ofAction a, some (stripped, secs)⟩

/-! ## Orchestrator (lines 512-672) -/

/-- Per-cluster processing status (lines 90-96). -/
inductive PStatus
  | success
  | updated
  | skipped
  | error
  | apiUnavailable
deriving DecidableEq

/-- One record of the bulk `/segments?allocated=true` response. -/
structure SegRecord where
  clusterName : Option String
  segment : Option String
deriving DecidableEq

/-- The segment cache: an association list where the most recent insertion
wins, matching Python dict overwrite/lookup. -/
abbrev Cache := List (String × String)

/-- Python dict lookup on the cache. -/
def cacheLookup (c : Cache) (k : String) : Option String :=
  (c.find? (fun p => p.1 == k)).map (·.2)

/-- Python dict insertion/overwrite on the cache. -/
def cacheInsert (c : Cache) (k v : String) : Cache := (k, v) :: c

/-- The cache-building loop of `fetch_all_segments` (lines 334-345): keep
records whose `cluster_name` and `segment` are both truthy. -/
def buildCache (l : List SegRecord) : Cache :=
  l.foldl
    (fun c r =>
      match r.clusterName, r.segment with
      | some n, some s => if n != "" && s != "" then cacheInsert c n s else c
      | _, _ => c)
    []

/-- `fetch_all_segments` (lines 319-352): no HTTP call and an empty cache
when the API is unavailable; an empty cache when the call failed or did not
return a list. -/
def fetch_all_segments (apiAvailable : Bool) (segResp : Option (List SegRecord)) :
    Cache :=
  if apiAvailable then
    match segResp with
    | some l => buildCache l
    | none => []
  else []

/-- `get_mce_segment` (lines 355-363): a pure cache lookup. -/
def get_mce_segment (cache : Cache) (mceName : String) : Option String :=
  cacheLookup cache mceName

/-- `allocate_vlan_segment` (lines 284-316): returns immediately without
an HTTP call when the API is unavailable; otherwise the oracle yields the
validated `(segment, str(vlan_id))` pair or `none` on any failure. -/
def allocate_vlan_segment (apiAvailable : Bool)
    (alloc : String → String → Option (String × String))
    (clusterName site : String) : Option (String × String) :=
  if apiAvailable then alloc clusterName site else none

/-- A discovered cluster: its name, artifact, and the MCE / site names
extracted from its path (`none` models extraction failure). -/
structure ClusterInput where
  name : String
  doc : Doc
  mceName : Option String
  site : Option String
deriving DecidableEq

/-- `check_automatic_allocation_enabled` (lines 220-234): `True` on a
raising read and on a `None` document; disabled only when the flag is the
exact value `False`. -/
def check_automatic_allocation_enabled (doc : Doc) : Bool :=
  match doc.parsed with
  | .raises => true
  | .null => true
  | .dict d => !(d.automaticAllocation == some false)

/-- Result of processing one cluster, instrumented with the write that
occurred, the number of allocator HTTP calls issued for this cluster, and
the cache as left behind. -/
structure SingleOutcome where
  status : PStatus
  wrote : Bool
  allocatorCalls : Nat
  cacheAfter : Cache
deriving DecidableEq

/-- `process_single_cluster` (lines 512-603). -/
def process_single_cluster (apiAvailable : Bool)
    (alloc : String → String → Option (String × String)) (dryRun : Bool)
    (cache : Cache) (c : ClusterInput) : SingleOutcome :=
  if !check_automatic_allocation_enabled c.doc then
    ⟨.skipped, false, 0, cache⟩
  else
    match c.mceName with
    | none => ⟨.error, false, 0, cache⟩
    | some mceName =>
      match c.site with
      | none => ⟨.error, false, 0, cache⟩
      | some site =>
        let calls := if apiAvailable then 1 else 0
        match allocate_vlan_segment apiAvailable alloc c.name site with
        | none => ⟨.error, false, calls, cache⟩
        | some (clusterSegment, vlanId) =>
          let cache2 := cacheInsert cache c.name clusterSegment
          let mceSegment := get_mce_segment cache2 mceName
          let r := update_cluster_yaml_smart c.doc vlanId mceSegment clusterSegment
            mceName c.name dryRun
          if r.success then
            let st :=
              if r.action = .noChange then PStatus.success
              else if r.action = .updated then PStatus.updated
              else if !apiAvailable then PStatus.apiUnavailable
              else PStatus.success
            ⟨st, r.written.isSome, calls, cache2⟩
          else ⟨.error, r.written.isSome, calls, cache2⟩

/-- Result of a whole run, instrumented with the number of bulk segment
fetches issued. -/
structure RunOutcome where
  bulkFetches : Nat
  results : List SingleOutcome
  totalWrites : Nat
  errors : Nat
  exitCode : Nat
deriving DecidableEq

/-- One iteration of the per-cluster loop (lines 653-658): process the
cluster against the threaded cache, record the result. -/
def runStep (apiAvailable : Bool)
    (alloc : String → String → Option (String × String)) (dryRun : Bool)
    (acc : Cache × List SingleOutcome) (c : ClusterInput) :
    Cache × List SingleOutcome :=
  let r := process_single_cluster apiAvailable alloc dryRun acc.1 c
  (r.cacheAfter, acc.2 ++ [r])

/-- `process_all_clusters` (lines 606-672) composed with the exit-status
rule of `main` (lines 750-754): an empty batch returns before the health
check and the bulk fetch; otherwise one health probe runs, the bulk fetch
is issued only when the probe succeeded, and the per-cluster loop threads
the cache.  The exit code is non-zero exactly when some artifact ended in
an error. -/
def process_all_clusters (clusters : List ClusterInput) (healthOk : Bool)
    (segResp : Option (List SegRecord))
    (alloc : String → String → Option (String × String)) (dryRun : Bool) :
    RunOutcome :=
  if clusters.isEmpty then ⟨0, [], 0, 0, 0⟩
  else
    let apiAvailable := healthOk
    let bulk := if apiAvailable then 1 else 0
    let cache0 := fetch_all_segments apiAvailable segResp
    let fin := clusters.foldl (runStep apiAvailable alloc dryRun) (cache0, [])
    let results := fin.2
    let errors := results.countP (fun r =>
      match r.status with
      | .error => true
      | _ => false)
    let writes := results.countP (fun r => r.wrote)
    ⟨bulk, results, writes, errors, if errors > 0 then 1 else 0⟩

/-! ## Legacy standalone configurator (`cluster_network_configurator.py`) -/

namespace Legacy

/-- One rule as written by the legacy `create_network_config`
(lines 143-184 of `cluster_network_configurator.py`): no domain, no
system names, the legacy `destention` spelling for the destination
endpoint, and `{port, type}` port entries. -/
def legacy_network_rule (number : Int) (fromSegment toSegment : String) : NetRule :=
  { number := some number
    domain := none
    fromEp := some ⟨some fromSegment, none⟩
    destination := none
    destention := some ⟨some toSegment, none⟩
    ports := [.legacy 80 "TCP", .legacy 8080 "UDP"] }

/-- The legacy `create_network_config`: the `Networks` list it appends. -/
def create_network_config (mceSegment clusterSegment : String) : List NetRule :=
  [legacy_network_rule 1 mceSegment clusterSegment,
   legacy_network_rule 2 clusterSegment mceSegment]

end Legacy

/-! ## Spec-level predicates (for the equality-oracle characterization) -/

/-- Spec reading of `vlanMatches`, amended to truthiness: the persisted
`vlanId` is present and truthy and its canonical string equals the
desired one. -/
def SpecVlanMatches (vlanId : String) (ev : Option YVal) : Prop :=
  ∃ v, ev = some v ∧ pyTruthy v = true ∧ pyStr v = vlanId

/-- Spec reading of the unordered segment-pair comparison. -/
def SpecPairMatches (mceSeg clusterSeg : String) (r : NetRule) : Prop :=
  (getFromSeg r = mceSeg ∧ getDestSeg r = clusterSeg) ∨
    (getFromSeg r = clusterSeg ∧ getDestSeg r = mceSeg)

/-- Spec reading of `segmentsMatch`, amended to truthiness of the MCE
segment: unconditional when it is absent or empty, otherwise some
persisted rule must carry the unordered desired pair. -/
def SpecSegmentsMatch (mce : Option String) (clusterSeg : String)
    (nets : List NetRule) : Prop :=
  if truthyOptStr mce then ∃ r ∈ nets, SpecPairMatches (mce.getD "") clusterSeg r
  else True

/-- Spec reading of "had any pre-existing vlanId or network rules",
amended to truthiness of the persisted `vlanId`. -/
def SpecHadContent (ev : Option YVal) (nets : List NetRule) : Prop :=
  (∃ v, ev = some v ∧ pyTruthy v = true) ∨ nets ≠ []

/-! ## Bridge lemmas between the Boolean oracle and the spec predicates -/

theorem vlanMatchesB_iff (vid : String) (ev : Option YVal) :
    vlanMatchesB vid ev = true ↔ SpecVlanMatches vid ev := by
  cases ev with
  | none => simp [vlanMatchesB, SpecVlanMatches]
  | some v =>
    by_cases h : pyTruthy v = true
    · simp [vlanMatchesB, SpecVlanMatches, h]
    · simp [vlanMatchesB, SpecVlanMatches, h]

theorem ruleMatches_iff (m c : String) (r : NetRule) :
    ruleMatches m c r = true ↔ SpecPairMatches m c r := by
  simp [ruleMatches, SpecPairMatches]

theorem segmentsMatchB_iff (mce : Option String) (c : String) (nets : List NetRule) :
    segmentsMatchB mce c nets = true ↔ SpecSegmentsMatch mce c nets := by
  by_cases hm : truthyOptStr mce = true
  · cases nets with
    | nil => simp [segmentsMatchB, SpecSegmentsMatch, hm]
    | cons a l =>
      simp [segmentsMatchB, SpecSegmentsMatch, hm, List.any_eq_true, ruleMatches_iff]
  · have hm' : truthyOptStr mce = false := by
      cases h : truthyOptStr mce with
      | false => rfl
      | true => exact absurd h hm
    simp [segmentsMatchB, SpecSegmentsMatch, hm']

theorem hadContentB_iff (ev : Option YVal) (nets : List NetRule) :
    hadContentB ev nets = true ↔ SpecHadContent ev nets := by
  cases ev with
  | none =>
    cases nets with
    | nil => simp [hadContentB, SpecHadContent]
    | cons a l => simp [hadContentB, SpecHadContent]
  | some v =>
    cases nets with
    | nil => simp [hadContentB, SpecHadContent]
    | cons a l => simp [hadContentB, SpecHadContent]

/-- C2 — amended equality-oracle decision.  The decision is `NoChange` iff
`vlanMatches ∧ segmentsMatch`, where `vlanMatches` holds iff the persisted
`vlanId` is present and truthy (not `0`, not the empty string) and its
canonical string form equals the desired one, and `segmentsMatch` holds
unconditionally when the desired MCE segment is absent or empty and
otherwise iff some persisted rule carries the unordered segment pair;
otherwise the decision is `Updated` when the artifact had a truthy
`vlanId` or a non-empty rule list, and `Added` when it had neither. -/
theorem decide_action_characterization (vid : String) (mce : Option String)
    (cs : String) (ev : Option YVal) (nets : List NetRule) :
    ((decide_action vid mce cs ev nets = Action.noChange) ↔
      (SpecVlanMatches vid ev ∧ SpecSegmentsMatch mce cs nets))
    ∧ ((decide_action vid mce cs ev nets = Action.updated) ↔
      (¬(SpecVlanMatches vid ev ∧ SpecSegmentsMatch mce cs nets) ∧
        SpecHadContent ev nets))
    ∧ ((decide_action vid mce cs ev nets = Action.added) ↔
      (¬(SpecVlanMatches vid ev ∧ SpecSegmentsMatch mce cs nets) ∧
        ¬SpecHadContent ev nets)) := by
  rw [← vlanMatchesB_iff, ← segmentsMatchB_iff, ← hadContentB_iff]
  unfold decide_action
  cases h1 : vlanMatchesB vid ev <;> cases h2 : segmentsMatchB mce cs nets <;>
    cases h3 : hadContentB ev nets <;> simp [h1, h2, h3]

/-- C2 counterexample: a persisted `vlanId` of integer `0` is present and
its canonical string `"0"` equals the desired `"0"`, and the desired MCE
segment is absent, so the claim requires `NoChange`; the code's truthiness
test discards the value and decides `Added`. -/
theorem decide_action_claim_cex :
    decide_action "0" none "10.1.100.0/24" (some (YVal.int 0)) [] = Action.added ∧
    pyStr (YVal.int 0) = "0" := by
  exact ⟨by decide, rfl⟩

/-! ## Line-surgery lemmas -/

theorem stripGo_sublist : ∀ (sk : Bool) (ls : List String), List.Sublist (stripGo sk ls) ls := by
  intro sk ls
  induction ls generalizing sk with
  | nil => simp [stripGo]
  | cons l ls ih =>
    unfold stripGo
    by_cases h1 : isVlanLine l = true
    · simp only [h1, if_true]
      exact (ih sk).cons l
    · simp only [h1, if_false, Bool.false_eq_true]
      by_cases h2 : isNetworksLine l = true
      · simp only [h2, if_true]
        exact (ih true).cons l
      · simp only [h2, if_false, Bool.false_eq_true]
        cases sk with
        | false =>
          simp only [if_false, Bool.false_eq_true]
          exact (ih false).cons₂ l
        | true =>
          simp only [if_true]
          by_cases h3 : isBlockContLine l = true
          · simp only [h3, if_true]
            exact (ih true).cons l
          · simp only [h3, if_false, Bool.false_eq_true]
            exact (ih false).cons₂ l

theorem stripGo_eq_specScan : ∀ (sk : Bool) (ls : List String),
    stripGo sk ls = specScan (if sk then ScanState.inBlock else ScanState.normal) ls := by
  intro sk ls
  induction ls generalizing sk with
  | nil => cases sk <;> simp [stripGo, specScan]
  | cons l ls ih =>
    unfold stripGo specScan specStep
    by_cases h1 : isVlanLine l = true
    · cases sk <;> simp [h1, ih]
    · by_cases h2 : isNetworksLine l = true
      · cases sk <;> simp [h1, h2, ih true]
      · by_cases h3 : isBlockContLine l = true
        · cases sk <;> simp [h1, h2, h3, ih]
        · cases sk <;> simp [h1, h2, h3, ih false]

/-- C3 — amended content preservation.  The removal pass equals the
explicit `Normal → InBlock → Normal` state machine `specScan` in which a
`vlanId:`-keyed line is always removed without ending a `Networks` block
(the first in-block line that is not indented, does not begin with a dash,
is not blank, and is not a `vlanId:`/`Networks:` key line ends the block
and is preserved), and its output is a sublist of the input: every kept
line is an original line, byte-identical and in its original order. -/
theorem content_preservation_amended (lines : List String) :
    stripManaged lines = specScan ScanState.normal lines ∧
    List.Sublist (stripManaged lines) lines := by
  refine ⟨?_, stripGo_sublist false lines⟩
  simpa using stripGo_eq_specScan false lines

/-- C3 counterexample: after the `Networks:` key, the non-indented line
`"vlanId: 5"` is consumed by the `vlanId` rule without ending the block,
so the following unmanaged line `"  weird: 2"` is dropped by the code,
while the claim's scanning rule (`claimScan`, in which any line that is
not indented, not a list item, and not blank ends the block) keeps it. -/
theorem content_preservation_cex :
    stripManaged ["Networks:", "  - a: 1", "vlanId: 5", "  weird: 2", "foo: bar"] =
      ["foo: bar"] ∧
    ("  weird: 2" ∈
      stripManaged ["Networks:", "  - a: 1", "vlanId: 5", "  weird: 2", "foo: bar"]) = False ∧
    claimScan ScanState.normal
        ["Networks:", "  - a: 1", "vlanId: 5", "  weird: 2", "foo: bar"] =
      ["  weird: 2", "foo: bar"] := by
  refine ⟨by decide, by simp [show stripManaged
    ["Networks:", "  - a: 1", "vlanId: 5", "  weird: 2", "foo: bar"] = ["foo: bar"]
    from by decide], by decide⟩

/-! ## Rewriter shape -/

/-- The error paths are exactly the paths without a write: a rewrite that
did not succeed wrote nothing. -/
theorem update_success_false_written (doc : Doc) (v : String) (mce : Option String)
    (cs mn cn : String) (dr : Bool) :
    (update_cluster_yaml_smart doc v mce cs mn cn dr).success = false →
    (update_cluster_yaml_smart doc v mce cs mn cn dr).written = none := by
  unfold update_cluster_yaml_smart
  repeat' split
  all_goals simp

/-- Whenever the rewriter writes, it wrote the stripped original lines
followed by the new sections, the `vlanId` section holds `int(vlan_id)`,
and the `Networks` section is present exactly when the MCE segment is
truthy. -/
theorem update_written_shape (doc : Doc) (v : String) (mce : Option String)
    (cs mn cn : String) (pl : List String) (secs : Sections)
    (h : (update_cluster_yaml_smart doc v mce cs mn cn false).written = some (pl, secs)) :
    pl = stripManaged doc.lines ∧
    ∃ n, pyIntOfString v = some n ∧
      secs = ("vlanId", SecVal.int n) ::
        (if truthyOptStr mce then
          [("Networks",
            SecVal.nets (create_network_config (mce.getD "") cs mn cn))]
        else []) := by
  unfold update_cluster_yaml_smart at h
  split at h
  · simp at h
  · split at h
    · simp at h
    · split at h
      · simp at h
      · split at h
        · simp at h
        · rename_i n heq
          simp only [Option.some.injEq, Prod.mk.injEq] at h
          exact ⟨h.1.symm, n, heq, h.2.symm⟩

/-- C1 — amended idempotence.  For every artifact and desired state whose
`vlan_id` string is the canonical form of a non-zero integer, if the
non-dry-run rewriter writes (action `Updated` or `Added`), then the
decision procedure applied to the managed state it wrote — with the same
desired state — yields `NoChange`; and whenever the decided action is
`NoChange`, the rewriter performs no write at all (so a second pass over
an unchanged batch writes nothing). -/
theorem reconciliation_idempotent :
    (∀ (doc : Doc) (v : String) (mce : Option String) (cs mn cn : String)
      (n : Int) (pl : List String) (secs : Sections),
      pyIntOfString v = some n → toString n = v → n ≠ 0 →
      (update_cluster_yaml_smart doc v mce cs mn cn false).written = some (pl, secs) →
      decide_action v mce cs ((sectionsVlan secs).map YVal.int)
        ((sectionsNets secs).getD []) = Action.noChange)
    ∧ (∀ (doc : Doc) (v : String) (mce : Option String) (cs mn cn : String)
        (dr : Bool) (d : YamlDict),
        parsedDict doc.parsed = some d →
        decide_action v mce cs d.vlanId d.networks = Action.noChange →
        update_cluster_yaml_smart doc v mce cs mn cn dr =
          ⟨true, UAction.noChange, none⟩) := by
  constructor
  · intro doc v mce cs mn cn n pl secs hv hcanon hnz hw
    obtain ⟨-, n', hn', hsecs⟩ := update_written_shape doc v mce cs mn cn pl secs hw
    rw [hv, Option.some.injEq] at hn'
    subst hn'
    subst hsecs
    have h1 : vlanMatchesB v (some (YVal.int n)) = true := by
      simp [vlanMatchesB, pyTruthy, pyStr, hnz, hcanon]
    cases hm : truthyOptStr mce with
    | false =>
      have h2 : segmentsMatchB mce cs [] = true := by
        simp [segmentsMatchB, hm]
      have hnv : ("Networks" == "vlanId") = false := by decide
      simp [sectionsVlan, sectionsNets, List.lookup, hnv, decide_action, h1, h2]
    | true =>
      have h2 : segmentsMatchB mce cs
          (create_network_config (mce.getD "") cs mn cn) = true := by
        have hr : ruleMatches (mce.getD "") cs
            (create_network_rule 1 (mce.getD "") mn cs cn) = true := by
          unfold ruleMatches create_network_rule getFromSeg getDestSeg epSeg
          simp only [Option.getD_some]
          by_cases hcs : cs = ""
          · subst hcs; simp
          · simp [hcs]
        simp [segmentsMatchB, hm, create_network_config, List.any_cons, hr]
      have hnv : ("Networks" == "vlanId") = false := by decide
      simp [sectionsVlan, sectionsNets, List.lookup, hnv, decide_action, h1, h2]
  · intro doc v mce cs mn cn dr d hp hd
    simp [update_cluster_yaml_smart, hp, hd]

/-- C1 witness: a fresh empty artifact with desired
`vlanId = "105"`, MCE segment `10.0.50.0/24`, cluster segment
`10.1.100.0/24` is written as `Added`, and the decision on the written
managed state is `NoChange`. -/
theorem reconciliation_idempotent_witness :
    decide_action "105" (some "10.0.50.0/24") "10.1.100.0/24"
      ((sectionsVlan [("vlanId", SecVal.int 105),
        ("Networks", SecVal.nets
          (create_network_config "10.0.50.0/24" "10.1.100.0/24" "mce1" "c1"))]).map
        YVal.int)
      ((sectionsNets [("vlanId", SecVal.int 105),
        ("Networks", SecVal.nets
          (create_network_config "10.0.50.0/24" "10.1.100.0/24" "mce1" "c1"))]).getD [])
      = Action.noChange :=
  reconciliation_idempotent.1 ⟨ParseOutcome.null, []⟩ "105" (some "10.0.50.0/24")
    "10.1.100.0/24" "mce1" "c1" 105 []
    [("vlanId", SecVal.int 105),
     ("Networks", SecVal.nets
       (create_network_config "10.0.50.0/24" "10.1.100.0/24" "mce1" "c1"))]
    (by decide) (by decide) (by decide) (by decide)

/-- C1 counterexample: with desired `vlan_id = "0"` over an empty
artifact, the first run decides `Added` and writes `vlanId: 0` plus the
matching rule pair, but the decision on that very output is `Updated`,
not `NoChange` — the truthiness test `if existing_vlan_id` (line 427)
discards a persisted `0`. -/
theorem reconciliation_idempotent_cex :
    (update_cluster_yaml_smart ⟨ParseOutcome.null, []⟩ "0" (some "10.0.50.0/24")
      "10.1.100.0/24" "mce1" "c1" false).written =
      some ([], [("vlanId", SecVal.int 0),
        ("Networks", SecVal.nets
          (create_network_config "10.0.50.0/24" "10.1.100.0/24" "mce1" "c1"))]) ∧
    (update_cluster_yaml_smart ⟨ParseOutcome.null, []⟩ "0" (some "10.0.50.0/24")
      "10.1.100.0/24" "mce1" "c1" false).action = UAction.added ∧
    decide_action "0" (some "10.0.50.0/24") "10.1.100.0/24" (some (YVal.int 0))
      (create_network_config "10.0.50.0/24" "10.1.100.0/24" "mce1" "c1") =
      Action.updated := by
  exact ⟨by decide, by decide, by decide⟩

/-- The decision on a fresh (empty) persisted state is always `Added`. -/
theorem decide_action_fresh (v : String) (mce : Option String) (cs : String) :
    decide_action v mce cs none [] = Action.added := rfl

/-- C4 — rewriter append postcondition.  Whenever a rewrite is performed,
the call succeeds and writes the stripped document followed by the new
sections: `vlanId` first, holding `int(vlan_id)`; a `Networks` section
follows exactly when the desired MCE segment is present (truthy),
containing rule 1 from the MCE segment to the cluster segment and rule 2
in the reverse direction, each endpoint annotated with its owner's name,
each rule carrying the same fixed ports (80/TCP, 8080/TCP,
30000-36000/TCP); when the MCE segment is absent only `vlanId` is written
and the prior `Networks` block is still stripped. -/
theorem rewriter_append_postcondition :
    (∀ (doc : Doc) (v : String) (mce : Option String) (cs mn cn : String)
      (pl : List String) (secs : Sections),
      (update_cluster_yaml_smart doc v mce cs mn cn false).written = some (pl, secs) →
      (update_cluster_yaml_smart doc v mce cs mn cn false).success = true ∧
      pl = stripManaged doc.lines ∧
      ∃ n, pyIntOfString v = some n ∧
        secs = ("vlanId", SecVal.int n) ::
          (if truthyOptStr mce then
            [("Networks",
              SecVal.nets (create_network_config (mce.getD "") cs mn cn))]
          else []))
    ∧ (∀ m c a b : String,
        (create_network_config m c a b).map NetRule.number = [some 1, some 2] ∧
        (create_network_config m c a b).map NetRule.domain =
          [some DEFAULT_DOMAIN, some DEFAULT_DOMAIN] ∧
        (create_network_config m c a b).map NetRule.fromEp =
          [some ⟨some m, some a⟩, some ⟨some c, some b⟩] ∧
        (create_network_config m c a b).map NetRule.destination =
          [some ⟨some c, some b⟩, some ⟨some m, some a⟩] ∧
        (create_network_config m c a b).map NetRule.ports =
          [get_default_ports_config, get_default_ports_config])
    ∧ get_default_ports_config =
        [PortEntry.single 80 "TCP", PortEntry.single 8080 "TCP",
         PortEntry.portRange 30000 36000 "TCP"] := by
  refine ⟨?_, ?_, rfl⟩
  · intro doc v mce cs mn cn pl secs hw
    have hsucc : (update_cluster_yaml_smart doc v mce cs mn cn false).success = true := by
      cases hs : (update_cluster_yaml_smart doc v mce cs mn cn false).success with
      | true => rfl
      | false =>
        have hnone := update_success_false_written doc v mce cs mn cn false hs
        rw [hnone] at hw
        simp at hw
    exact ⟨hsucc, update_written_shape doc v mce cs mn cn pl secs hw⟩
  · intro m c a b
    exact ⟨rfl, rfl, rfl, rfl, rfl⟩

/-- C4 witness: an empty artifact, desired `vlanId = "7"`, MCE segment
absent — the write succeeds, strips nothing, and appends `vlanId` only. -/
theorem rewriter_append_postcondition_witness :
    (update_cluster_yaml_smart ⟨ParseOutcome.null, ["a: 1"]⟩ "7" none "10.2.0.0/24"
      "m2" "c2" false).success = true ∧
    ["a: 1"] = stripManaged (Doc.mk ParseOutcome.null ["a: 1"]).lines ∧
    ∃ n, pyIntOfString "7" = some n ∧
      ([("vlanId", SecVal.int 7)] : Sections) = ("vlanId", SecVal.int n) ::
        (if truthyOptStr none then
          [("Networks",
            SecVal.nets (create_network_config ((none : Option String).getD "")
              "10.2.0.0/24" "m2" "c2"))]
        else []) :=
  rewriter_append_postcondition.1 ⟨ParseOutcome.null, ["a: 1"]⟩ "7" none "10.2.0.0/24"
    "m2" "c2" ["a: 1"] [("vlanId", SecVal.int 7)] (by decide)

/-- C5 — amended parse handling.  An artifact whose content loads as an
empty (`None`) document is treated as an empty persisted state: the
decision is a fresh `Added`, the rewrite succeeds, and the per-artifact
status is `success`, not an error.  An artifact whose content raises a
parse error, however, takes the catch-all path: the rewriter returns
`(False, "error")` and the artifact is marked as an error. -/
theorem parse_handling_amended :
    (∀ (lines : List String) (v : String) (mce : Option String) (cs mn cn : String)
      (n : Int), pyIntOfString v = some n →
      (update_cluster_yaml_smart ⟨ParseOutcome.null, lines⟩ v mce cs mn cn false).action =
        UAction.added ∧
      (update_cluster_yaml_smart ⟨ParseOutcome.null, lines⟩ v mce cs mn cn false).success =
        true)
    ∧ (∀ (lines : List String) (v : String) (mce : Option String) (cs mn cn : String)
        (dr : Bool),
        update_cluster_yaml_smart ⟨ParseOutcome.raises, lines⟩ v mce cs mn cn dr =
          ⟨false, UAction.error, none⟩)
    ∧ (∀ (name mceN site : String) (lines : List String)
        (alloc : String → String → Option (String × String)) (seg vid : String)
        (n : Int) (cache : Cache),
        alloc name site = some (seg, vid) → pyIntOfString vid = some n →
        (process_single_cluster true alloc false cache
          ⟨name, ⟨ParseOutcome.null, lines⟩, some mceN, some site⟩).status =
          PStatus.success) := by
  refine ⟨?_, fun lines v mce cs mn cn dr => rfl, ?_⟩
  · intro lines v mce cs mn cn n hn
    constructor
    · simp [update_cluster_yaml_smart, parsedDict, decide_action_fresh, hn, UAction.ofAction]
    · simp [update_cluster_yaml_smart, parsedDict, decide_action_fresh, hn]
  · intro name mceN site lines alloc seg vid n cache ha hn
    simp [process_single_cluster, check_automatic_allocation_enabled,
      allocate_vlan_segment, ha, update_cluster_yaml_smart, parsedDict,
      decide_action_fresh, hn, UAction.ofAction]

/-- C5 witness: a concrete empty-loading artifact with a successful
allocation is written as `Added` and its status is `success`. -/
theorem parse_handling_witness :
    (update_cluster_yaml_smart ⟨ParseOutcome.null, ["x: 2"]⟩ "105" none "10.1.100.0/24"
      "mce1" "c1" false).action = UAction.added ∧
    (update_cluster_yaml_smart ⟨ParseOutcome.null, ["x: 2"]⟩ "105" none "10.1.100.0/24"
      "mce1" "c1" false).success = true :=
  parse_handling_amended.1 ["x: 2"] "105" none "10.1.100.0/24" "mce1" "c1" 105 (by decide)

/-- C5 counterexample: an artifact whose content raises a parse error is
not treated as an empty persisted state — the rewriter reports an error
and the per-artifact result (even with a successful allocation) is
`error`, contradicting "the per-artifact result is not an Error". -/
theorem parse_failure_cex :
    (update_cluster_yaml_smart ⟨ParseOutcome.raises, ["a: [unclosed"]⟩ "105"
      (some "10.0.50.0/24") "10.1.100.0/24" "mce1" "c1" false).action = UAction.error ∧
    (process_single_cluster true (fun _ _ => some ("10.1.100.0/24", "105")) false []
      ⟨"c1", ⟨ParseOutcome.raises, ["a: [unclosed"]⟩, some "mce1", some "site1"⟩).status =
      PStatus.error := by
  exact ⟨rfl, by decide⟩

/-- C9 — opt-out isolation.  An artifact whose `AutomaticAllocation` flag
is explicitly `false` is marked `Skipped`, nothing is written, no
allocator call is issued for it, and the cache is untouched. -/
theorem optout_isolation (api : Bool)
    (alloc : String → String → Option (String × String)) (dryRun : Bool)
    (cache : Cache) (name : String) (lines : List String)
    (mceN : Option String) (site : Option String) (d : YamlDict)
    (h : d.automaticAllocation = some false) :
    process_single_cluster api alloc dryRun cache
      ⟨name, ⟨ParseOutcome.dict d, lines⟩, mceN, site⟩ =
      ⟨PStatus.skipped, false, 0, cache⟩ := by
  unfold process_single_cluster check_automatic_allocation_enabled
  simp [h]

/-- C9 witness: a concrete opted-out artifact is skipped with zero
allocator calls and no write. -/
theorem optout_isolation_witness :
    process_single_cluster true (fun _ _ => none) false []
      ⟨"c9", ⟨ParseOutcome.dict ⟨none, [], some false⟩, []⟩, some "m9", some "s9"⟩ =
      ⟨PStatus.skipped, false, 0, []⟩ :=
  optout_isolation true (fun _ _ => none) false [] "c9" [] (some "m9") (some "s9")
    ⟨none, [], some false⟩ rfl

/-! ## The oracle reads only the extracted segment pairs -/

/-- Lists of rules with equal extracted segment pairs are equally empty. -/
theorem map_segPair_isEmpty_eq (n1 n2 : List NetRule)
    (h : n1.map ruleSegPair = n2.map ruleSegPair) : n1.isEmpty = n2.isEmpty := by
  cases n1 with
  | nil =>
    cases n2 with
    | nil => rfl
    | cons b m => simp at h
  | cons a l =>
    cases n2 with
    | nil => simp at h
    | cons b m => rfl

/-- The comparison scan depends on the rules only through the extracted
`(from-segment, destination-segment)` pairs. -/
theorem segmentsMatchB_congr (mce : Option String) (cs : String)
    (n1 n2 : List NetRule) (h : n1.map ruleSegPair = n2.map ruleSegPair) :
    segmentsMatchB mce cs n1 = segmentsMatchB mce cs n2 := by
  have hpair : ∀ l : List NetRule, l.any (ruleMatches (mce.getD "") cs) =
      (l.map ruleSegPair).any (fun p =>
        (p.1 == mce.getD "" && p.2 == cs) || (p.1 == cs && p.2 == mce.getD "")) := by
    intro l
    induction l with
    | nil => rfl
    | cons a t ih =>
      simp only [List.any_cons, List.map_cons]
      rw [ih]
      exact rfl
  unfold segmentsMatchB
  rw [map_segPair_isEmpty_eq n1 n2 h, hpair, hpair, h]

/-- The whole decision depends on the rules only through the extracted
segment pairs. -/
theorem decide_action_congr (vid : String) (mce : Option String) (cs : String)
    (ev : Option YVal) (n1 n2 : List NetRule)
    (h : n1.map ruleSegPair = n2.map ruleSegPair) :
    decide_action vid mce cs ev n1 = decide_action vid mce cs ev n2 := by
  unfold decide_action hadContentB
  rw [segmentsMatchB_congr mce cs n1 n2 h, map_segPair_isEmpty_eq n1 n2 h]

/-- C10 — decision insensitivity to non-segment rule fields.  Two
persisted states with the same `vlanId` whose rules agree on the
extracted `(from-segment, destination-segment)` pairs — ports, system
names, domain, and rule numbers arbitrary — receive the same decision;
in particular, when the persisted `vlanId` matches and some rule carries
the correct unordered segment pair, the decision is `NoChange` and the
rewriter writes nothing. -/
theorem decision_nonsegment_insensitivity :
    (∀ (vid : String) (mce : Option String) (cs : String) (ev : Option YVal)
      (nets1 nets2 : List NetRule),
      nets1.map ruleSegPair = nets2.map ruleSegPair →
      decide_action vid mce cs ev nets1 = decide_action vid mce cs ev nets2)
    ∧ (∀ (vid : String) (mce : Option String) (cs : String) (ev : Option YVal)
        (nets : List NetRule),
        vlanMatchesB vid ev = true → truthyOptStr mce = true →
        (∃ r ∈ nets, ruleMatches (mce.getD "") cs r = true) →
        decide_action vid mce cs ev nets = Action.noChange ∧
        ∀ (lines : List String) (mn cn : String) (dr : Bool) (aa : Option Bool),
          (update_cluster_yaml_smart ⟨ParseOutcome.dict ⟨ev, nets, aa⟩, lines⟩
            vid mce cs mn cn dr).written = none) := by
  constructor
  · exact fun vid mce cs ev n1 n2 h => decide_action_congr vid mce cs ev n1 n2 h
  · intro vid mce cs ev nets hv hm hex
    have hne : nets.isEmpty = false := by
      obtain ⟨r, hr, -⟩ := hex
      cases nets with
      | nil => exact absurd hr (List.not_mem_nil r)
      | cons a l => rfl
    have hsm : segmentsMatchB mce cs nets = true := by
      unfold segmentsMatchB
      rw [hm, hne]
      simpa [List.any_eq_true] using hex
    have hd : decide_action vid mce cs ev nets = Action.noChange := by
      unfold decide_action
      rw [hv, hsm]
      rfl
    refine ⟨hd, ?_⟩
    intro lines mn cn dr aa
    simp [update_cluster_yaml_smart, parsedDict, hd]

/-- C10 witness: a persisted rule pair with the right segments but junk
ports, names, domain, and numbers is judged `NoChange`. -/
theorem decision_nonsegment_insensitivity_witness :
    decide_action "5" (some "10.0.50.0/24") "10.1.100.0/24" (some (YVal.str "5"))
      [{ number := some 9, domain := some "weird",
         fromEp := some ⟨some "10.0.50.0/24", some "x"⟩,
         destination := some ⟨some "10.1.100.0/24", some "y"⟩,
         destention := none,
         ports := [PortEntry.legacy 1 "UDP"] }] = Action.noChange :=
  (decision_nonsegment_insensitivity.2 "5" (some "10.0.50.0/24") "10.1.100.0/24"
    (some (YVal.str "5"))
    [{ number := some 9, domain := some "weird",
       fromEp := some ⟨some "10.0.50.0/24", some "x"⟩,
       destination := some ⟨some "10.1.100.0/24", some "y"⟩,
       destention := none,
       ports := [PortEntry.legacy 1 "UDP"] }]
    (by decide) (by decide) (by decide)).1

/-- C7 — amended legacy alias handling.  Reading is alias-insensitive: a
rule whose destination endpoint is spelled with the legacy key
(`destention`) yields the same extracted destination segment, and the
same decision, as the same rule spelled with the canonical key
(`destination`).  Rules newly written by the production rewriter use only
the canonical spelling (their `destention` key is absent and their
`destination` key is present); the standalone legacy configurator,
however, writes the legacy spelling. -/
theorem legacy_alias_handling :
    (∀ (num : Option Int) (dom : Option String) (f : Option Endpoint)
      (e : Endpoint) (ports : List PortEntry),
      getDestSeg ⟨num, dom, f, some e, none, ports⟩ =
        getDestSeg ⟨num, dom, f, none, some e, ports⟩)
    ∧ (∀ (vid : String) (mce : Option String) (cs : String) (ev : Option YVal)
        (pre post : List NetRule) (num : Option Int) (dom : Option String)
        (f : Option Endpoint) (e : Endpoint) (ports : List PortEntry),
        decide_action vid mce cs ev (pre ++ ⟨num, dom, f, some e, none, ports⟩ :: post) =
          decide_action vid mce cs ev (pre ++ ⟨num, dom, f, none, some e, ports⟩ :: post))
    ∧ (∀ m c a b : String,
        (create_network_config m c a b).map NetRule.destention = [none, none] ∧
        (create_network_config m c a b).map (fun r => r.destination.isSome) =
          [true, true]) := by
  have hread : ∀ (num : Option Int) (dom : Option String) (f : Option Endpoint)
      (e : Endpoint) (ports : List PortEntry),
      getDestSeg ⟨num, dom, f, some e, none, ports⟩ =
        getDestSeg ⟨num, dom, f, none, some e, ports⟩ := by
    intro num dom f e ports
    unfold getDestSeg epSeg
    by_cases h : e.segment.getD "" = ""
    · simp [h]
    · simp [h]
  refine ⟨hread, ?_, fun m c a b => ⟨rfl, rfl⟩⟩
  intro vid mce cs ev pre post num dom f e ports
  apply decide_action_congr
  simp only [List.map_append, List.map_cons]
  have hsp : ruleSegPair ⟨num, dom, f, some e, none, ports⟩ =
      ruleSegPair ⟨num, dom, f, none, some e, ports⟩ :=
    congrArg (Prod.mk (epSeg f)) (hread num dom f e ports)
  rw [hsp]

/-- C7 counterexample: both rules newly written by the legacy standalone
configurator carry the legacy `destention` key and no canonical
`destination` key, contradicting "every newly written rule uses only the
canonical spelling". -/
theorem legacy_alias_cex :
    (Legacy.create_network_config "10.0.50.0/24" "10.1.100.0/24").map
        (fun r => (r.destination, r.destention)) =
      [(none, some ⟨some "10.1.100.0/24", none⟩),
       (none, some ⟨some "10.0.50.0/24", none⟩)] := rfl

/-! ## Orchestrator lemmas -/

/-- With the allocator unavailable, a single cluster is either skipped
(opt-out) or ends in an error before any write. -/
theorem process_single_not_available
    (alloc : String → String → Option (String × String)) (dryRun : Bool)
    (cache : Cache) (c : ClusterInput) :
    (process_single_cluster false alloc dryRun cache c).wrote = false ∧
    ((process_single_cluster false alloc dryRun cache c).status = PStatus.skipped ∨
      (process_single_cluster false alloc dryRun cache c).status = PStatus.error) := by
  unfold process_single_cluster allocate_vlan_segment
  cases h : check_automatic_allocation_enabled c.doc with
  | false => simp [h]
  | true =>
    simp only [h, Bool.not_true, Bool.false_eq_true, if_false]
    cases c.mceName with
    | none => simp
    | some mceN =>
      cases c.site with
      | none => simp
      | some site => simp

/-- Every result accumulated by the per-cluster loop satisfies any
property enjoyed by all single-cluster outcomes. -/
theorem runStep_foldl_prop (apiAvailable : Bool)
    (alloc : String → String → Option (String × String)) (dryRun : Bool)
    (P : SingleOutcome → Prop)
    (hP : ∀ cache c, P (process_single_cluster apiAvailable alloc dryRun cache c)) :
    ∀ (cs : List ClusterInput) (acc : Cache × List SingleOutcome),
      (∀ r ∈ acc.2, P r) →
      ∀ r ∈ (cs.foldl (runStep apiAvailable alloc dryRun) acc).2, P r := by
  intro cs
  induction cs with
  | nil =>
    intro acc hacc r hr
    exact hacc r hr
  | cons c cs ih =>
    intro acc hacc r hr
    refine ih (runStep apiAvailable alloc dryRun acc c) ?_ r hr
    intro s hs
    unfold runStep at hs
    rcases List.mem_append.mp hs with h1 | h1
    · exact hacc s h1
    · rw [List.mem_singleton.mp h1]
      exact hP acc.1 c

/-- C6 — amended pre-flight behaviour.  When the pre-flight health check
fails, the run does not abort: every discovered artifact is still
examined, but none is mutated (zero writes), each per-artifact result is
`Skipped` (opt-out) or `Error`, and the process exit status is zero iff
no artifact ended in an error (so it is non-zero whenever at least one
non-opted-out artifact exists). -/
theorem preflight_failure_behaviour (clusters : List ClusterInput)
    (segResp : Option (List SegRecord))
    (alloc : String → String → Option (String × String)) (dryRun : Bool) :
    (process_all_clusters clusters false segResp alloc dryRun).totalWrites = 0 ∧
    (process_all_clusters clusters false segResp alloc dryRun).results.length =
      clusters.length ∧
    (∀ r ∈ (process_all_clusters clusters false segResp alloc dryRun).results,
      r.status = PStatus.skipped ∨ r.status = PStatus.error) ∧
    ((process_all_clusters clusters false segResp alloc dryRun).exitCode = 0 ↔
      (process_all_clusters clusters false segResp alloc dryRun).errors = 0) := by
  have hlen : ∀ (cs : List ClusterInput) (acc : Cache × List SingleOutcome),
      (cs.foldl (runStep false alloc dryRun) acc).2.length = acc.2.length + cs.length := by
    intro cs
    induction cs with
    | nil => intro acc; simp
    | cons c cs ih =>
      intro acc
      rw [List.foldl_cons, ih]
      unfold runStep
      simp
      omega
  unfold process_all_clusters
  cases hc : clusters.isEmpty with
  | true =>
    have : clusters = [] := List.isEmpty_iff.mp hc
    subst this
    simp
  | false =>
    simp only [hc, Bool.false_eq_true, if_false]
    have hall := runStep_foldl_prop false alloc dryRun
      (fun r => r.wrote = false ∧ (r.status = PStatus.skipped ∨ r.status = PStatus.error))
      (fun cache c => process_single_not_available alloc dryRun cache c)
      clusters (fetch_all_segments false segResp, []) (by intro r hr; simp at hr)
    refine ⟨?_, ?_, ?_, ?_⟩
    · rw [List.countP_eq_zero]
      intro r hr
      simp [(hall r hr).1]
    · simpa using hlen clusters (fetch_all_segments false segResp, [])
    · intro r hr
      exact (hall r hr).2
    · constructor
      · intro h
        by_contra hne
        have : 0 < (clusters.foldl (runStep false alloc dryRun)
            (fetch_all_segments false segResp, [])).2.countP (fun r =>
              match r.status with
              | PStatus.error => true
              | _ => false) := Nat.pos_of_ne_zero hne
        simp [this] at h
      · intro h
        simp [h]

/-- C6 counterexample: a run whose health check fails over a batch whose
single artifact has opted out still processes that artifact (one result
is recorded, so the run did not abort before per-artifact work) and exits
with status zero, contradicting "the process exit status is non-zero". -/
theorem preflight_abort_cex :
    (process_all_clusters
      [⟨"c1", ⟨ParseOutcome.dict ⟨none, [], some false⟩, []⟩, some "m", some "s"⟩]
      false none (fun _ _ => none) false).exitCode = 0 ∧
    (process_all_clusters
      [⟨"c1", ⟨ParseOutcome.dict ⟨none, [], some false⟩, []⟩, some "m", some "s"⟩]
      false none (fun _ _ => none) false).results.length = 1 := by
  exact ⟨by decide, by decide⟩

/-- C6 witness: instantiating the amended pre-flight theorem on that same
one-artifact batch shows its recorded result is `Skipped` or `Error`. -/
theorem preflight_failure_behaviour_witness :
    (⟨PStatus.skipped, false, 0, ([] : Cache)⟩ : SingleOutcome).status =
        PStatus.skipped ∨
    (⟨PStatus.skipped, false, 0, ([] : Cache)⟩ : SingleOutcome).status =
        PStatus.error :=
  (preflight_failure_behaviour
    [⟨"c6", ⟨ParseOutcome.dict ⟨none, [], some false⟩, []⟩, some "m", some "s"⟩]
    none (fun _ _ => none) false).2.2.1
    ⟨PStatus.skipped, false, 0, ([] : Cache)⟩ (by decide)

/-- C8 — amended single bulk fetch.  A run issues at most one bulk
segment fetch: exactly one when the batch is non-empty and the health
probe succeeded, and zero when the batch is empty (the function returns
before the fetch) or the allocator is unavailable; when it occurs it
populates the cache before the per-cluster loop starts. -/
theorem single_bulk_fetch_count (clusters : List ClusterInput) (healthOk : Bool)
    (segResp : Option (List SegRecord))
    (alloc : String → String → Option (String × String)) (dryRun : Bool) :
    (process_all_clusters clusters healthOk segResp alloc dryRun).bulkFetches =
      (if clusters.isEmpty then 0 else if healthOk then 1 else 0) := by
  unfold process_all_clusters
  cases hc : clusters.isEmpty <;> simp [hc]

/-- C8 counterexample: over an empty batch (N = 0), zero bulk fetches
occur even with a healthy allocator, contradicting "exactly one bulk
segment fetch for every N ≥ 0". -/
theorem single_bulk_fetch_cex :
    (process_all_clusters [] true (some []) (fun _ _ => none) false).bulkFetches
      = 0 := rfl

end ClusterNet
